import Mathlib

/-!
Shallow embedding of the rendering core in src/src/main.rs: the `State`
struct with its `new`, `resize`, `input`, `update` and `render` methods,
and the event-driven loop in `run`.  GPU side effects (surface
configuration, command submission, presentation) are modelled as values:
`render` receives the outcome of the surface-texture acquisition as an
explicit argument and, on success, returns the ordered list of recorded
GPU commands; the event loop is a step function on `(State, ControlFlow)`
that also emits a trace of loop-level actions.
-/

namespace LearnWgpu

/-- Mirrors winit::dpi::PhysicalSize with u32 components. -/
structure PhysicalSize where
  width : Nat
  height : Nat
deriving DecidableEq

/-- Mirrors wgpu::TextureUsages as used here (only RENDER_ATTACHMENT occurs). -/
inductive TextureUsages
  | RENDER_ATTACHMENT
deriving DecidableEq

/-- Mirrors wgpu::PresentMode (only Fifo is used). -/
inductive PresentMode
  | Fifo
  | Immediate
  | Mailbox
deriving DecidableEq

/-- Surface capability query result: lists of supported formats and alpha
modes, abstracted as numeric identifiers (the code only ever reads index 0). -/
structure SurfaceCapabilities where
  formats : List Nat
  alpha_modes : List Nat
deriving DecidableEq

/-- Mirrors wgpu::SurfaceConfiguration as built in State::new. -/
structure SurfaceConfiguration where
  usage : TextureUsages
  format : Nat
  width : Nat
  height : Nat
  present_mode : PresentMode
  alpha_mode : Nat
  view_formats : List Nat
deriving DecidableEq

/-- Mirrors wgpu::PrimitiveTopology. -/
inductive PrimitiveTopology
  | PointList
  | LineList
  | LineStrip
  | TriangleList
  | TriangleStrip
deriving DecidableEq

/-- Mirrors wgpu::FrontFace. -/
inductive FrontFace
  | Ccw
  | Cw
deriving DecidableEq

/-- Mirrors wgpu::Face (for cull_mode). -/
inductive Face
  | Front
  | Back
deriving DecidableEq

/-- Mirrors wgpu::PolygonMode. -/
inductive PolygonMode
  | Fill
  | Line
  | Point
deriving DecidableEq

/-- Mirrors wgpu::PrimitiveState as built in State::new. -/
structure PrimitiveState where
  topology : PrimitiveTopology
  strip_index_format : Option Nat
  front_face : FrontFace
  cull_mode : Option Face
  polygon_mode : PolygonMode
  unclipped_depth : Bool
  conservative : Bool
deriving DecidableEq

/-- Mirrors wgpu::MultisampleState (mask is a u64 bit mask). -/
structure MultisampleState where
  count : Nat
  mask : Nat
  alpha_to_coverage_enabled : Bool
deriving DecidableEq

/-- The render pipeline as configured in State::new: shader entry points,
no vertex buffer layouts, one color target at the surface format,
triangle-list primitives with back-face culling and CCW winding, no
depth/stencil, single-sample output. -/
structure RenderPipelineDescriptor where
  vertex_entry : String
  vertex_buffers : List Nat
  fragment_entry : String
  target_format : Nat
  primitive : PrimitiveState
  multisample : MultisampleState
  depth_stencil : Option Nat
deriving DecidableEq

/-- The pipeline State::new builds from the chosen surface format. -/
def mkRenderPipeline (format : Nat) : RenderPipelineDescriptor :=
  { vertex_entry := "vs_main"
    vertex_buffers := []
    fragment_entry := "fs_main"
    target_format := format
    primitive :=
      { topology := PrimitiveTopology.TriangleList
        strip_index_format := none
        front_face := FrontFace.Ccw
        cull_mode := some Face.Back
        polygon_mode := PolygonMode.Fill
        unclipped_depth := false
        conservative := false }
    multisample :=
      { count := 1
        mask := 2 ^ 64 - 1
        alpha_to_coverage_enabled := false }
    depth_stencil := none }

/-- The State struct of main.rs: surface configuration, last stored window
size, and the fixed render pipeline.  The device, queue and surface handles
carry no observable state of their own and are elided. -/
structure State where
  config : SurfaceConfiguration
  size : PhysicalSize
  render_pipeline : RenderPipelineDescriptor
deriving DecidableEq

/-- State::new (main.rs lines 20-124): reads the window's inner size,
selects the first supported format and alpha mode from the capability
query (a panic — modelled as none — if either list is empty), builds the
surface configuration with the window dimensions verbatim, and builds the
fixed pipeline.  Device/adapter acquisition has no pure content. -/
def State.new (window_inner_size : PhysicalSize) (caps : SurfaceCapabilities) :
    Option State :=
  match caps.formats, caps.alpha_modes with
  | format :: _, alpha :: _ =>
    some
      { config :=
          { usage := TextureUsages.RENDER_ATTACHMENT
            format := format
            width := window_inner_size.width
            height := window_inner_size.height
            present_mode := PresentMode.Fifo
            alpha_mode := alpha
            view_formats := [] }
        size := window_inner_size
        render_pipeline := mkRenderPipeline format }
  | _, _ => none

/-- State::resize (main.rs lines 126-133): only when both dimensions are
nonzero, store the new size, copy it into the surface configuration and
reconfigure; otherwise do nothing. -/
def State.resize (s : State) (new_size : PhysicalSize) : State :=
  if 0 < new_size.width ∧ 0 < new_size.height then
    { s with
      size := new_size
      config :=
        { s.config with width := new_size.width, height := new_size.height } }
  else s

/-- Mirrors winit::event::ElementState. -/
inductive ElementState
  | Pressed
  | Released
deriving DecidableEq

/-- Mirrors winit::event::VirtualKeyCode, collapsing every key other than
Escape into one numbered constructor. -/
inductive VirtualKeyCode
  | Escape
  | OtherKey (code : Nat)
deriving DecidableEq

/-- Mirrors winit::event::KeyboardInput (the matched fields). -/
structure KeyboardInput where
  state : ElementState
  virtual_keycode : Option VirtualKeyCode
deriving DecidableEq

/-- Mirrors winit::event::WindowEvent, keeping the variants the code
matches and collapsing the rest. -/
inductive WindowEvent
  | Resized (size : PhysicalSize)
  | ScaleFactorChanged (new_inner_size : PhysicalSize)
  | CloseRequested
  | KeyboardInput (input : KeyboardInput)
  | OtherWindowEvent
deriving DecidableEq

/-- State::input (main.rs lines 135-137): always reports unhandled. -/
def State.input (s : State) (_event : WindowEvent) : State × Bool :=
  (s, false)

/-- State::update (main.rs lines 139-141): a no-op. -/
def State.update (s : State) : State :=
  s

/-- Mirrors wgpu::SurfaceError. -/
inductive SurfaceError
  | Timeout
  | Outdated
  | Lost
  | OutOfMemory
deriving DecidableEq

/-- The RGBA clear color, components as exact rationals. -/
structure Color where
  r : Rat
  g : Rat
  b : Rat
  a : Rat
deriving DecidableEq

/-- Mirrors wgpu::LoadOp for color attachments. -/
inductive LoadOp
  | Clear (color : Color)
  | Load
deriving DecidableEq

/-- Mirrors wgpu::StoreOp. -/
inductive StoreOp
  | Store
  | Discard
deriving DecidableEq

/-- The GPU commands State::render records, in order.  Buffer-binding
constructors are present so that their absence from the recorded trace is
meaningful. -/
inductive RenderCmd
  | beginRenderPass (load : LoadOp) (store : StoreOp)
  | setPipeline (pipeline : RenderPipelineDescriptor)
  | setVertexBuffer (slot : Nat)
  | setIndexBuffer
  | draw (vertex_start vertex_end instance_start instance_end : Nat)
  | endRenderPass
  | submit
  | present
deriving DecidableEq

/-- State::render (main.rs lines 143-189): acquiring the surface texture
can fail (the ? operator propagates the error with no state change); on
success it records one render pass clearing to (0.1, 0.2, 0.3, 1.0) with
Store, binds the fixed pipeline, draws vertices 0..3 instances 0..1, ends
the pass, submits, presents, and returns Ok.  The acquisition outcome is
an explicit argument; the recorded command list is returned alongside the
(unchanged) state. -/
def State.render (s : State) (acquire : Except SurfaceError Unit) :
    Except SurfaceError (State × List RenderCmd) :=
  match acquire with
  | Except.error e => Except.error e
  | Except.ok _ =>
    Except.ok (s,
      [ RenderCmd.beginRenderPass
          (LoadOp.Clear { r := 1/10, g := 2/10, b := 3/10, a := 1 })
          StoreOp.Store,
        RenderCmd.setPipeline s.render_pipeline,
        RenderCmd.draw 0 3 0 1,
        RenderCmd.endRenderPass,
        RenderCmd.submit,
        RenderCmd.present ])

/-- Mirrors winit::event_loop::ControlFlow (exit code is an i32). -/
inductive ControlFlow
  | Poll
  | Wait
  | ExitWithCode (code : Int)
deriving DecidableEq

/-- Mirrors winit::event::Event, keeping the arms run matches. -/
inductive Event
  | MainEventsCleared
  | RedrawRequested (window_id : Nat)
  | WindowEvent (window_id : Nat) (event : WindowEvent)
  | OtherEvent
deriving DecidableEq

/-- Observable actions of one iteration of the event-loop closure in run:
a redraw request, the update call, a render attempt, a resize call (with
its argument as evaluated at the call site), or logging an error. -/
inductive LoopAction
  | requestRedraw
  | update
  | renderAttempt
  | resizeCall (size : PhysicalSize)
  | log (e : SurfaceError)
deriving DecidableEq

/-- Whether a loop action is a render attempt. -/
def LoopAction.isRenderAttempt : LoopAction → Bool
  | LoopAction.renderAttempt => true
  | _ => false

/-- Whether a loop action is a resize call. -/
def LoopAction.isResizeCall : LoopAction → Bool
  | LoopAction.resizeCall _ => true
  | _ => false

/-- One invocation of the event-loop closure in run (main.rs lines
205-248), for a window with id wid: MainEventsCleared requests a redraw;
RedrawRequested on the window runs update then render, and on error
reconfigures via resize(state.size) when the surface was Lost, sets
ControlFlow::ExitWithCode(0) when OutOfMemory, and logs any other error;
WindowEvent on the window is offered to input first (always unhandled) and
then matched: Resized and ScaleFactorChanged call resize, CloseRequested
and an Escape key release set ControlFlow::ExitWithCode(0).  The render
acquisition outcome is an explicit argument. -/
def handleEvent (wid : Nat) (s : State) (cf : ControlFlow) (ev : Event)
    (acquire : Except SurfaceError Unit) :
    State × ControlFlow × List LoopAction :=
  match ev with
  | Event.MainEventsCleared => (s, cf, [LoopAction.requestRedraw])
  | Event.RedrawRequested id =>
    if id = wid then
      let s1 := s.update
      match s1.render acquire with
      | Except.ok (s2, _cmds) =>
        (s2, cf, [LoopAction.update, LoopAction.renderAttempt])
      | Except.error SurfaceError.Lost =>
        (s1.resize s1.size, cf,
         [LoopAction.update, LoopAction.renderAttempt,
          LoopAction.resizeCall s1.size])
      | Except.error SurfaceError.OutOfMemory =>
        (s1, ControlFlow.ExitWithCode 0,
         [LoopAction.update, LoopAction.renderAttempt])
      | Except.error e =>
        (s1, cf,
         [LoopAction.update, LoopAction.renderAttempt, LoopAction.log e])
    else (s, cf, [])
  | Event.WindowEvent id wev =>
    if id = wid then
      let p := s.input wev
      if p.2 then (p.1, cf, [])
      else
        match wev with
        | WindowEvent.Resized sz =>
          (p.1.resize sz, cf, [LoopAction.resizeCall sz])
        | WindowEvent.ScaleFactorChanged sz =>
          (p.1.resize sz, cf, [LoopAction.resizeCall sz])
        | WindowEvent.CloseRequested =>
          (p.1, ControlFlow.ExitWithCode 0, [])
        | WindowEvent.KeyboardInput ki =>
          match ki.state, ki.virtual_keycode with
          | ElementState.Released, some VirtualKeyCode.Escape =>
            (p.1, ControlFlow.ExitWithCode 0, [])
          | _, _ => (p.1, cf, [])
        | WindowEvent.OtherWindowEvent => (p.1, cf, [])
    else (s, cf, [])
  | Event.OtherEvent => (s, cf, [])

/-- The driving loop: processes a list of events (each paired with the
surface-acquisition outcome its render attempt, if any, would observe),
threading state and control flow; once control flow is ExitWithCode the
loop stops delivering events (winit tears the loop down), so no further
actions are emitted. -/
def runLoop (wid : Nat) (s : State) (cf : ControlFlow) :
    List (Event × Except SurfaceError Unit) →
    State × ControlFlow × List LoopAction
  | [] => (s, cf, [])
  | (ev, acq) :: rest =>
    match cf with
    | ControlFlow.ExitWithCode c => (s, ControlFlow.ExitWithCode c, [])
    | _ =>
      let step := handleEvent wid s cf ev acq
      let tail := runLoop wid step.1 step.2.1 rest
      (tail.1, tail.2.1, step.2.2 ++ tail.2.2)

/-- The dimension invariant of §3 of the spec: the surface configuration's
dimensions equal the stored size and are positive. -/
def dimsInv (s : State) : Prop :=
  s.config.width = s.size.width ∧ s.config.height = s.size.height ∧
    0 < s.config.width ∧ 0 < s.config.height

instance : DecidablePred dimsInv := fun s => by
  unfold dimsInv; infer_instance

/-- The equality half of the invariant alone: configuration dimensions
match the stored size (no positivity requirement). -/
def dimsEq (s : State) : Prop :=
  s.config.width = s.size.width ∧ s.config.height = s.size.height

instance : DecidablePred dimsEq := fun s => by
  unfold dimsEq; infer_instance

/-! ## Helper lemmas shared by several claims -/

/-- A successful render leaves the state unchanged. -/
lemma render_ok_state (s : State) (acquire : Except SurfaceError Unit)
    (r : State × List RenderCmd) (h : s.render acquire = Except.ok r) :
    r.1 = s := by
  cases acquire with
  | error e => simp [State.render] at h
  | ok u => simp [State.render] at h; simp [← h]

/-- update is the identity. -/
lemma update_id (s : State) : s.update = s := rfl

/-- input never changes the state and always reports unhandled. -/
lemma input_id (s : State) (ev : WindowEvent) : s.input ev = (s, false) := rfl

/-- resize with both dimensions positive stores the new size and copies it
into the configuration. -/
lemma resize_pos (s : State) (sz : PhysicalSize)
    (hw : 0 < sz.width) (hh : 0 < sz.height) :
    s.resize sz =
      { s with
        size := sz
        config := { s.config with width := sz.width, height := sz.height } } := by
  simp [State.resize, hw, hh]

/-- resize with a zero dimension is the identity. -/
lemma resize_nonpos (s : State) (sz : PhysicalSize)
    (h : ¬ (0 < sz.width ∧ 0 < sz.height)) :
    s.resize sz = s := by
  simp [State.resize, h]

/-- resize preserves the equality between configuration dimensions and the
stored size, whatever the argument. -/
lemma resize_dimsEq (s : State) (sz : PhysicalSize) (h : dimsEq s) :
    dimsEq (s.resize sz) := by
  by_cases hc : 0 < sz.width ∧ 0 < sz.height
  · simp [State.resize, hc, dimsEq]
  · simpa [State.resize, hc] using h

/-- resize preserves the full dimension invariant, whatever the argument. -/
lemma resize_dimsInv (s : State) (sz : PhysicalSize) (h : dimsInv s) :
    dimsInv (s.resize sz) := by
  by_cases hc : 0 < sz.width ∧ 0 < sz.height
  · simp [State.resize, hc, dimsInv]
  · simpa [State.resize, hc] using h

/-- Construction copies the window's inner size into both the stored size
and the configuration dimensions, verbatim. -/
lemma new_dims (sz : PhysicalSize) (caps : SurfaceCapabilities) (s : State)
    (h : State.new sz caps = some s) :
    s.size = sz ∧ s.config.width = sz.width ∧ s.config.height = sz.height := by
  unfold State.new at h
  rcases caps with ⟨fs, as⟩
  cases fs with
  | nil => simp at h
  | cons f ft =>
    cases as with
    | nil => simp at h
    | cons a at' =>
      simp at h
      simp [← h]

/-- A sample state: the result of construction from an 8x6 window with
capability lists [0], [0]. -/
def sampleState : State :=
  { config :=
      { usage := TextureUsages.RENDER_ATTACHMENT
        format := 0
        width := 8
        height := 6
        present_mode := PresentMode.Fifo
        alpha_mode := 0
        view_formats := [] }
    size := ⟨8, 6⟩
    render_pipeline := mkRenderPipeline 0 }

/-- The state State::new produces from a 0x0 window with capability lists
[0], [0]: its configuration dimensions are zero. -/
def zeroState : State :=
  { config :=
      { usage := TextureUsages.RENDER_ATTACHMENT
        format := 0
        width := 0
        height := 0
        present_mode := PresentMode.Fifo
        alpha_mode := 0
        view_formats := [] }
    size := ⟨0, 0⟩
    render_pipeline := mkRenderPipeline 0 }

/-! ## Claim theorems -/

/-- Claim C1, counterexample: the claim asserts that already after
construction the configuration dimensions are positive, but State::new
copies the window's inner size into the configuration with no positivity
check, so constructing from a 0x0 window yields a state violating the
invariant. -/
theorem c1_construction_zero_counterexample :
    State.new ⟨0, 0⟩ ⟨[0], [0]⟩ = some zeroState ∧ ¬ dimsInv zeroState :=
  ⟨rfl, by decide⟩

/-- Claim C1 (amended): provided the initial window size is positive, the
invariant — configuration dimensions equal the stored size and are both
positive — holds after construction and is preserved by every operation:
Resize (a resize with a zero dimension is dropped, preserving the last
valid configuration), Render (state unchanged on success; errors propagate
before any mutation), Update and Input. -/
theorem c1_dims_invariant :
    (∀ (sz : PhysicalSize) (caps : SurfaceCapabilities) (s : State),
        0 < sz.width → 0 < sz.height → State.new sz caps = some s →
        dimsInv s) ∧
    (∀ (s : State) (sz : PhysicalSize), dimsInv s → dimsInv (s.resize sz)) ∧
    (∀ (s : State) (acquire : Except SurfaceError Unit)
        (r : State × List RenderCmd),
        s.render acquire = Except.ok r → dimsInv s → dimsInv r.1) ∧
    (∀ s : State, dimsInv s → dimsInv s.update) ∧
    (∀ (s : State) (ev : WindowEvent), dimsInv s → dimsInv (s.input ev).1) := by
  refine ⟨?_, ?_, ?_, ?_, ?_⟩
  · intro sz caps s hw hh hnew
    obtain ⟨hsz, hcw, hch⟩ := new_dims sz caps s hnew
    exact ⟨by rw [hsz, hcw], by rw [hsz, hch], by rw [hcw]; exact hw,
           by rw [hch]; exact hh⟩
  · exact resize_dimsInv
  · intro s acquire r hr h
    rw [render_ok_state s acquire r hr]; exact h
  · intro s h; rw [update_id]; exact h
  · intro s ev h; rw [input_id]; exact h

/-- Claim C1 witness: the amended invariant instantiated on the state
constructed from an 8x6 window, a resize to 3x4, a successful render, an
update and an input event. -/
theorem c1_dims_invariant_witness :
    dimsInv sampleState ∧ dimsInv (sampleState.resize ⟨3, 4⟩) ∧
      dimsInv sampleState.update ∧
      dimsInv (sampleState.input WindowEvent.CloseRequested).1 :=
  ⟨c1_dims_invariant.1 ⟨8, 6⟩ ⟨[0], [0]⟩ sampleState (by decide) (by decide) rfl,
   c1_dims_invariant.2.1 sampleState ⟨3, 4⟩ (by decide),
   c1_dims_invariant.2.2.2.1 sampleState (by decide),
   c1_dims_invariant.2.2.2.2 sampleState WindowEvent.CloseRequested (by decide)⟩

/-- Claim C2: for every pair with both dimensions positive, resize stores
exactly that pair as the new size and copies it into the configuration's
width and height. -/
theorem c2_resize_positive_updates (s : State) (sz : PhysicalSize)
    (hw : 0 < sz.width) (hh : 0 < sz.height) :
    (s.resize sz).size = sz ∧ (s.resize sz).config.width = sz.width ∧
      (s.resize sz).config.height = sz.height := by
  rw [resize_pos s sz hw hh]
  exact ⟨rfl, rfl, rfl⟩

/-- Claim C2 witness: resizing the sample state to 3x4. -/
theorem c2_resize_positive_updates_witness :
    (sampleState.resize ⟨3, 4⟩).size = (⟨3, 4⟩ : PhysicalSize) ∧
      (sampleState.resize ⟨3, 4⟩).config.width = 3 ∧
      (sampleState.resize ⟨3, 4⟩).config.height = 4 :=
  c2_resize_positive_updates sampleState ⟨3, 4⟩ (by decide) (by decide)

/-- Claim C3: for every pair in which either dimension is zero, resize is
a silent no-op — the entire state (stored size and full surface
configuration) is unchanged. -/
theorem c3_resize_zero_noop (s : State) (sz : PhysicalSize)
    (h : sz.width = 0 ∨ sz.height = 0) : s.resize sz = s := by
  apply resize_nonpos
  rcases h with h | h <;> omega

/-- Claim C3 witness: resizing the sample state to 0x5 changes nothing. -/
theorem c3_resize_zero_noop_witness :
    sampleState.resize ⟨0, 5⟩ = sampleState :=
  c3_resize_zero_noop sampleState ⟨0, 5⟩ (Or.inl rfl)

/-- Claim C4: resize is idempotent on valid sizes — resizing twice in a
row with the same positive size equals resizing once. -/
theorem c4_resize_idempotent (s : State) (sz : PhysicalSize)
    (hw : 0 < sz.width) (hh : 0 < sz.height) :
    (s.resize sz).resize sz = s.resize sz := by
  rw [resize_pos s sz hw hh, resize_pos _ sz hw hh]

/-- Claim C4 witness: resizing the sample state to 3x4 twice. -/
theorem c4_resize_idempotent_witness :
    (sampleState.resize ⟨3, 4⟩).resize ⟨3, 4⟩ = sampleState.resize ⟨3, 4⟩ :=
  c4_resize_idempotent sampleState ⟨3, 4⟩ (by decide) (by decide)

/-- Claim C9: the equality between stored size and configuration
dimensions holds after construction and is preserved by every operation
even when dimensions are zero; in particular, construction performs no
positivity check, so a 0x4 window yields a configuration of width 0. -/
theorem c9_dims_equality :
    (∀ (sz : PhysicalSize) (caps : SurfaceCapabilities) (s : State),
        State.new sz caps = some s →
        s.size = sz ∧ s.config.width = sz.width ∧
          s.config.height = sz.height) ∧
    (∀ (s : State) (sz : PhysicalSize), dimsEq s → dimsEq (s.resize sz)) ∧
    (∀ (s : State) (acquire : Except SurfaceError Unit)
        (r : State × List RenderCmd),
        s.render acquire = Except.ok r → dimsEq s → dimsEq r.1) ∧
    (∀ s : State, dimsEq s → dimsEq s.update) ∧
    (∀ (s : State) (ev : WindowEvent), dimsEq s → dimsEq (s.input ev).1) ∧
    (∃ s, State.new ⟨0, 4⟩ ⟨[1], [2]⟩ = some s ∧ s.config.width = 0 ∧
      s.size.width = 0 ∧ dimsEq s) := by
  refine ⟨new_dims, resize_dimsEq, ?_, ?_, ?_, ?_⟩
  · intro s acquire r hr h
    rw [render_ok_state s acquire r hr]; exact h
  · intro s h; rw [update_id]; exact h
  · intro s ev h; rw [input_id]; exact h
  · exact ⟨_, rfl, rfl, rfl, by decide⟩

/-- Claim C9 witness: the equality instantiated on construction from an
8x6 window and a resize of the sample state to 0x5. -/
theorem c9_dims_equality_witness :
    (sampleState.size = (⟨8, 6⟩ : PhysicalSize) ∧
      sampleState.config.width = 8 ∧ sampleState.config.height = 6) ∧
      dimsEq (sampleState.resize ⟨0, 5⟩) :=
  ⟨c9_dims_equality.1 ⟨8, 6⟩ ⟨[0], [0]⟩ sampleState rfl,
   c9_dims_equality.2.1 sampleState ⟨0, 5⟩ (by decide)⟩

/-- Claim C8: on successful acquisition, render records — in this order —
one render pass begun with a clear to (0.1, 0.2, 0.3, 1.0) and Store, a
bind of the single fixed pipeline, exactly one draw of vertices 0..3 and
instances 0..1, the end of the pass, a submit and a present, and returns
success with the state unchanged; the trace contains no vertex- or
index-buffer binding. -/
theorem c8_render_success_trace (s : State) :
    s.render (Except.ok ()) = Except.ok (s,
      [ RenderCmd.beginRenderPass
          (LoadOp.Clear { r := 1/10, g := 2/10, b := 3/10, a := 1 })
          StoreOp.Store,
        RenderCmd.setPipeline s.render_pipeline,
        RenderCmd.draw 0 3 0 1,
        RenderCmd.endRenderPass,
        RenderCmd.submit,
        RenderCmd.present ]) :=
  rfl

/-- Claim C5: when the render attempt observes the surface-lost error, the
loop iteration calls resize exactly once — with the context's current
stored size as argument — after its single render attempt, mutates the
state to resize(state, state.size), leaves control flow running, and the
next render attempt can only come from a later event, whose actions follow
in the trace. -/
theorem c5_lost_triggers_resize (wid : Nat) (s : State)
    (rest : List (Event × Except SurfaceError Unit)) :
    runLoop wid s ControlFlow.Poll
        ((Event.RedrawRequested wid, Except.error SurfaceError.Lost) :: rest) =
      ((runLoop wid (s.resize s.size) ControlFlow.Poll rest).1,
       (runLoop wid (s.resize s.size) ControlFlow.Poll rest).2.1,
       LoopAction.update :: LoopAction.renderAttempt ::
         LoopAction.resizeCall s.size ::
         (runLoop wid (s.resize s.size) ControlFlow.Poll rest).2.2) ∧
    (handleEvent wid s ControlFlow.Poll (Event.RedrawRequested wid)
        (Except.error SurfaceError.Lost)).2.2.filter
        LoopAction.isResizeCall = [LoopAction.resizeCall s.size] ∧
    (handleEvent wid s ControlFlow.Poll (Event.RedrawRequested wid)
        (Except.error SurfaceError.Lost)).2.2.countP
        LoopAction.isRenderAttempt = 1 := by
  refine ⟨?_, ?_, ?_⟩
  · simp [runLoop, handleEvent, State.update, State.render]
  · simp [handleEvent, State.update, State.render, List.filter,
      LoopAction.isResizeCall]
  · simp [handleEvent, State.update, State.render, List.countP,
      List.countP.go, LoopAction.isRenderAttempt]

/-- Claim C6: when the render attempt observes the out-of-memory error,
the loop sets ControlFlow::ExitWithCode(0), the state is unmodified, the
loop delivers no further events, and the whole trace contains exactly one
render attempt — no further render calls are issued. -/
theorem c6_oom_exits (wid : Nat) (s : State)
    (rest : List (Event × Except SurfaceError Unit)) :
    runLoop wid s ControlFlow.Poll
        ((Event.RedrawRequested wid, Except.error SurfaceError.OutOfMemory) ::
          rest) =
      (s, ControlFlow.ExitWithCode 0,
       [LoopAction.update, LoopAction.renderAttempt]) ∧
    (runLoop wid s ControlFlow.Poll
        ((Event.RedrawRequested wid, Except.error SurfaceError.OutOfMemory) ::
          rest)).2.2.countP LoopAction.isRenderAttempt = 1 := by
  have h : runLoop wid s ControlFlow.Poll
      ((Event.RedrawRequested wid, Except.error SurfaceError.OutOfMemory) ::
        rest) =
      (s, ControlFlow.ExitWithCode 0,
       [LoopAction.update, LoopAction.renderAttempt]) := by
    cases rest <;>
      simp [runLoop, handleEvent, State.update, State.render]
  refine ⟨h, ?_⟩
  rw [h]
  rfl

/-- Claim C7: when the render attempt observes any error other than Lost
or OutOfMemory, the loop logs it, mutates no state, does not terminate,
and processing continues so that the next frame's render is attempted
normally — demonstrated by a following redraw event producing a second
render attempt. -/
theorem c7_other_error_logged (wid : Nat) (s : State) (e : SurfaceError)
    (rest : List (Event × Except SurfaceError Unit))
    (hL : e ≠ SurfaceError.Lost) (hM : e ≠ SurfaceError.OutOfMemory) :
    runLoop wid s ControlFlow.Poll
        ((Event.RedrawRequested wid, Except.error e) :: rest) =
      ((runLoop wid s ControlFlow.Poll rest).1,
       (runLoop wid s ControlFlow.Poll rest).2.1,
       LoopAction.update :: LoopAction.renderAttempt :: LoopAction.log e ::
         (runLoop wid s ControlFlow.Poll rest).2.2) ∧
    (runLoop wid s ControlFlow.Poll
        [(Event.RedrawRequested wid, Except.error e),
         (Event.RedrawRequested wid, Except.ok ())]).2.2 =
      [LoopAction.update, LoopAction.renderAttempt, LoopAction.log e,
       LoopAction.update, LoopAction.renderAttempt] := by
  cases e with
  | Timeout =>
    constructor
    · simp [runLoop, handleEvent, State.update, State.render]
    · simp [runLoop, handleEvent, State.update, State.render]
  | Outdated =>
    constructor
    · simp [runLoop, handleEvent, State.update, State.render]
    · simp [runLoop, handleEvent, State.update, State.render]
  | Lost => exact absurd rfl hL
  | OutOfMemory => exact absurd rfl hM

/-- Claim C7 witness: the theorem instantiated at the Outdated error on
the sample state with no further events. -/
theorem c7_other_error_logged_witness :
    runLoop 0 sampleState ControlFlow.Poll
        ((Event.RedrawRequested 0, Except.error SurfaceError.Outdated) ::
          []) =
      ((runLoop 0 sampleState ControlFlow.Poll []).1,
       (runLoop 0 sampleState ControlFlow.Poll []).2.1,
       LoopAction.update :: LoopAction.renderAttempt ::
         LoopAction.log SurfaceError.Outdated ::
         (runLoop 0 sampleState ControlFlow.Poll []).2.2) ∧
    (runLoop 0 sampleState ControlFlow.Poll
        [(Event.RedrawRequested 0, Except.error SurfaceError.Outdated),
         (Event.RedrawRequested 0, Except.ok ())]).2.2 =
      [LoopAction.update, LoopAction.renderAttempt,
       LoopAction.log SurfaceError.Outdated,
       LoopAction.update, LoopAction.renderAttempt] :=
  c7_other_error_logged 0 sampleState SurfaceError.Outdated []
    (by decide) (by decide)

/-- Claim C10: an Escape key event terminates the loop (exit code 0) only
when its element state is Released; with any other element state (i.e.
Pressed) the handler leaves both the control flow and the entire context
state unchanged and emits no action. -/
theorem c10_escape_release_only (wid : Nat) (s : State) (cf : ControlFlow)
    (st : ElementState) (hst : st ≠ ElementState.Released) :
    handleEvent wid s cf
        (Event.WindowEvent wid (WindowEvent.KeyboardInput
          { state := ElementState.Released
            virtual_keycode := some VirtualKeyCode.Escape }))
        (Except.ok ()) = (s, ControlFlow.ExitWithCode 0, []) ∧
    handleEvent wid s cf
        (Event.WindowEvent wid (WindowEvent.KeyboardInput
          { state := st
            virtual_keycode := some VirtualKeyCode.Escape }))
        (Except.ok ()) = (s, cf, []) := by
  constructor
  · simp [handleEvent, State.input]
  · cases st with
    | Pressed => simp [handleEvent, State.input]
    | Released => exact absurd rfl hst

/-- Claim C10 witness: the handler on the sample state, window id 0 and a
running control flow, with a pressed Escape key. -/
theorem c10_escape_release_only_witness :
    handleEvent 0 sampleState ControlFlow.Poll
        (Event.WindowEvent 0 (WindowEvent.KeyboardInput
          { state := ElementState.Released
            virtual_keycode := some VirtualKeyCode.Escape }))
        (Except.ok ()) = (sampleState, ControlFlow.ExitWithCode 0, []) ∧
    handleEvent 0 sampleState ControlFlow.Poll
        (Event.WindowEvent 0 (WindowEvent.KeyboardInput
          { state := ElementState.Pressed
            virtual_keycode := some VirtualKeyCode.Escape }))
        (Except.ok ()) = (sampleState, ControlFlow.Poll, []) :=
  c10_escape_release_only 0 sampleState ControlFlow.Poll
    ElementState.Pressed (by decide)

end LearnWgpu
